import Mathlib

/-!
Shallow embedding of `api/fs.go` (the `AllocFS` filesystem proxy of a Nomad
client) and of the `taskrunner` one-shot result broadcast (`handleResult`).

Go functions are translated into pure Lean functions.  External collaborators
(the node registry lookup `Nodes().Info` and the HTTP transport
`http.Client.Do`) are passed in as oracle functions in an `Env`; each
operation returns, besides its result, the list of HTTP requests it issued,
so that "fails before issuing any network call" is expressible.  JSON
decoding (`json.Decoder`) is likewise an oracle parameter, since the decoder
library is outside this repository.  Go channels are modelled by the list of
values delivered on them plus a flag recording whether the channel was
closed; the `cancel` channel of `Stream` is modelled by the iteration index
at which it becomes ready (a closed channel stays ready forever).
-/

/-- The `AllocFileInfo` struct holds information about a file inside the AllocDir
(fields as in the Go struct; `ModTime` is modelled as an integer epoch). -/
structure AllocFileInfo where
  Name : String
  IsDir : Bool
  Size : Int
  FileMode : String
  ModTime : Int
deriving DecidableEq, Repr

/-- The `StreamFrame` struct is used to frame data of a file when streaming. -/
structure StreamFrame where
  Offset : Int
  Data : String
  File : String
  FileEvent : String
deriving DecidableEq, Repr

/-- The heartbeat predicate of the Go code: a frame with empty `Data` and
empty `FileEvent` is a heartbeat. -/
def StreamFrame.IsHeartbeat (s : StreamFrame) : Bool :=
  s.Data == "" && s.FileEvent == ""

/-- The node record returned by the registry; only `HTTPAddr` is read by this code. -/
structure Node where
  HTTPAddr : String
deriving DecidableEq, Repr

/-- An allocation reference: its own ID and the ID of the node hosting it. -/
structure Allocation where
  ID : String
  NodeID : String
deriving DecidableEq, Repr

/-- A `url.URL` as built by the Go code: scheme, host, path, and the query
values in the order they are `Set` (their `Encode`d text is not modelled). -/
structure URL where
  Scheme : String
  Host : String
  Path : String
  Query : List (String × String)
deriving DecidableEq, Repr

/-- An `http.Request` as built by the Go code (`Method` and `URL`). -/
structure Request where
  Method : String
  url : URL
deriving DecidableEq, Repr

/-- An `http.Response`: the status code and the body, read as a string. -/
structure Response where
  statusCode : Nat
  body : String
deriving DecidableEq, Repr

/-- The two external collaborators of `AllocFS`: the node registry
(`a.client.Nodes().Info`, keyed by node ID) and the HTTP transport
(`http.Client{}.Do`).  Either can fail with an error string. -/
structure Env where
  nodesInfo : String → Except String Node
  httpDo : Request → Except String Response

/-- The error built by `fmt.Errorf("http addr of the node where alloc %q is
running is not advertised", alloc.ID)` (`%q` quotes the ID). -/
def noAddrMsg (allocID : String) : String :=
  "http addr of the node where alloc \"" ++ allocID ++ "\" is running is not advertised"

/-- The request built by `List`: GET `/v1/client/fs/ls/{allocID}?path=`. -/
def listRequest (node : Node) (alloc : Allocation) (path : String) : Request :=
  ⟨"GET", ⟨"http", node.HTTPAddr, "/v1/client/fs/ls/" ++ alloc.ID, [("path", path)]⟩⟩

/-- The request built by `Stat`: GET `/v1/client/fs/stat/{allocID}?path=`. -/
def statRequest (node : Node) (alloc : Allocation) (path : String) : Request :=
  ⟨"GET", ⟨"http", node.HTTPAddr, "/v1/client/fs/stat/" ++ alloc.ID, [("path", path)]⟩⟩

/-- The request built by `ReadAt`: GET `/v1/client/fs/readat/{allocID}?path=&offset=&limit=`. -/
def readAtRequest (node : Node) (alloc : Allocation) (path : String)
    (offset limit : Int) : Request :=
  ⟨"GET", ⟨"http", node.HTTPAddr, "/v1/client/fs/readat/" ++ alloc.ID,
    [("path", path), ("offset", toString offset), ("limit", toString limit)]⟩⟩

/-- The request built by `Cat`: GET `/v1/client/fs/cat/{allocID}?path=`. -/
def catRequest (node : Node) (alloc : Allocation) (path : String) : Request :=
  ⟨"GET", ⟨"http", node.HTTPAddr, "/v1/client/fs/cat/" ++ alloc.ID, [("path", path)]⟩⟩

/-- The request built by `Stream`: GET `/v1/client/fs/stream/{allocID}?path=&origin=&offset=`
(its `Cancel` field is modelled separately, by `cancelAt` below). -/
def streamRequest (node : Node) (alloc : Allocation) (path origin : String)
    (offset : Int) : Request :=
  ⟨"GET", ⟨"http", node.HTTPAddr, "/v1/client/fs/stream/" ++ alloc.ID,
    [("path", path), ("origin", origin), ("offset", toString offset)]⟩⟩

/-- The `getErrorMsg` helper reads the whole response body and returns it as the error
text.  (The in-memory body string always reads successfully, so the
`ReadAll` failure branch of the Go code cannot fire in the model.) -/
def AllocFS.getErrorMsg (resp : Response) : String :=
  resp.body

/-- Go `AllocFS.List`: resolve the node, fail if its HTTP address is not
advertised, otherwise GET the `ls` endpoint, fail with the body text on a
non-200 status, and decode the body into a list of `AllocFileInfo`.
Returns the result together with the list of HTTP requests issued. -/
def AllocFS.list (env : Env)
    (decodeFiles : String → Except String (List AllocFileInfo))
    (alloc : Allocation) (path : String) :
    Except String (List AllocFileInfo) × List Request :=
  match env.nodesInfo alloc.NodeID with
  | .error e => (.error e, [])
  | .ok node =>
    if node.HTTPAddr = "" then
      (.error (noAddrMsg alloc.ID), [])
    else
      let req := listRequest node alloc path
      match env.httpDo req with
      | .error e => (.error e, [req])
      | .ok resp =>
        if resp.statusCode ≠ 200 then
          (.error (AllocFS.getErrorMsg resp), [req])
        else
          match decodeFiles resp.body with
          | .error e => (.error e, [req])
          | .ok files => (.ok files, [req])

/-- Go `AllocFS.Stat`: like `List` but on the `stat` endpoint; the body decodes
to a single (possibly nil) `AllocFileInfo` pointer. -/
def AllocFS.stat (env : Env)
    (decodeFile : String → Except String (Option AllocFileInfo))
    (alloc : Allocation) (path : String) :
    Except String (Option AllocFileInfo) × List Request :=
  match env.nodesInfo alloc.NodeID with
  | .error e => (.error e, [])
  | .ok node =>
    if node.HTTPAddr = "" then
      (.error (noAddrMsg alloc.ID), [])
    else
      let req := statRequest node alloc path
      match env.httpDo req with
      | .error e => (.error e, [req])
      | .ok resp =>
        if resp.statusCode ≠ 200 then
          (.error (AllocFS.getErrorMsg resp), [req])
        else
          match decodeFile resp.body with
          | .error e => (.error e, [req])
          | .ok file => (.ok file, [req])

/-- Go `AllocFS.ReadAt`: resolve the node, fail if its HTTP address is not
advertised, otherwise GET the `readat` endpoint and return the response
body reader directly — the Go code performs no status check here. -/
def AllocFS.readAt (env : Env) (alloc : Allocation) (path : String)
    (offset limit : Int) : Except String String × List Request :=
  match env.nodesInfo alloc.NodeID with
  | .error e => (.error e, [])
  | .ok node =>
    if node.HTTPAddr = "" then
      (.error (noAddrMsg alloc.ID), [])
    else
      let req := readAtRequest node alloc path offset limit
      match env.httpDo req with
      | .error e => (.error e, [req])
      | .ok resp => (.ok resp.body, [req])

/-- Go `AllocFS.Cat`: like `ReadAt` but on the `cat` endpoint, with no offset or
limit — again no status check in the Go code. -/
def AllocFS.cat (env : Env) (alloc : Allocation) (path : String) :
    Except String String × List Request :=
  match env.nodesInfo alloc.NodeID with
  | .error e => (.error e, [])
  | .ok node =>
    if node.HTTPAddr = "" then
      (.error (noAddrMsg alloc.ID), [])
    else
      let req := catRequest node alloc path
      match env.httpDo req with
      | .error e => (.error e, [req])
      | .ok resp => (.ok resp.body, [req])

/-- One run of the `Stream` decode-loop goroutine.  `c` is the cancel
channel: `some k` means the `select` observes it ready from iteration `k`
on (a closed channel stays ready), `none` means it never fires.  The input
list is the sequence of frames the `json.Decoder` successfully decodes from
the response body, in order; the decoder fails (end of body) after the last
one.  The result is the list of frames sent on the `frames` channel, in
order, and whether `close(frames)` was executed. -/
def streamLoopGo (c : Option Nat) (fs : List StreamFrame) :
    List StreamFrame × Bool :=
  match c, fs with
  | some 0, _ => ([], false)
  | _, [] => ([], true)
  | none, f :: rest =>
    let out := streamLoopGo none rest
    if f.IsHeartbeat then out else (f :: out.1, out.2)
  | some (k + 1), f :: rest =>
    let out := streamLoopGo (some k) rest
    if f.IsHeartbeat then out else (f :: out.1, out.2)

/-- The decode loop as started by `Stream`, from iteration 0. -/
def streamLoop (cancelAt : Option Nat) (fs : List StreamFrame) :
    List StreamFrame × Bool :=
  streamLoopGo cancelAt fs

/-- Go `AllocFS.Stream`: resolve the node, fail if its HTTP address is not
advertised, issue the GET (with the cancel channel attached to the request),
and on any response — the status code is never inspected — return the
channel produced by the decode loop over the frames decoded from the body. -/
def AllocFS.stream (env : Env) (decodeFrames : String → List StreamFrame)
    (cancelAt : Option Nat) (alloc : Allocation) (path origin : String)
    (offset : Int) :
    Except String (List StreamFrame × Bool) × List Request :=
  match env.nodesInfo alloc.NodeID with
  | .error e => (.error e, [])
  | .ok node =>
    if node.HTTPAddr = "" then
      (.error (noAddrMsg alloc.ID), [])
    else
      let req := streamRequest node alloc path origin offset
      match env.httpDo req with
      | .error e => (.error e, [req])
      | .ok resp => (.ok (streamLoop cancelAt (decodeFrames resp.body)), [req])

/-- Modelled from the spec: `structs.WaitResult` (defined outside this
repository) is the opaque outcome value — "exit code, signal, error" —
produced exactly once by the supervised process; the broadcast code never
inspects its fields, so only an exit code is carried. -/
structure WaitResult where
  ExitCode : Int
deriving DecidableEq, Repr

/-- The `handleResult` state: the `result` field (a possibly-nil pointer,
written once by the listener goroutine) and whether `doneCh` has been
closed.  The Go listener sets `result` before closing `doneCh`, so the two
updates are observed atomically by any `Wait` that sees `doneCh` closed. -/
structure HandleResult where
  result : Option WaitResult
  doneClosed : Bool
deriving DecidableEq, Repr

/-- The state of `newHandleResult` before its listener goroutine has received anything:
`result` is nil and `doneCh` is open. -/
def newHandleResult : HandleResult :=
  ⟨none, false⟩

/-- The body of the listener goroutine once `<-waitCh` yields `res` (nil if
`waitCh` was closed without a send): store the result, then close `doneCh`. -/
def HandleResult.deliver (_ : HandleResult) (res : Option WaitResult) :
    HandleResult :=
  ⟨res, true⟩

/-- The possible outcomes of one `Wait` call: it blocks (neither channel
ready), or it returns a possibly-nil `*WaitResult`. -/
inductive WaitOutcome where
  | blocks
  | returns (res : Option WaitResult)
deriving DecidableEq, Repr

/-- Go `handleResult.Wait(ctx)`: select on `doneCh` and `ctx.Done()`.
`ctxDone` says whether `ctx.Done()` is ready at the select; `pickCtx`
resolves the nondeterministic choice when both channels are ready (`true`
picks the `ctx.Done()` case, returning nil; `false` picks `doneCh`,
returning the stored result).  With neither ready the call blocks. -/
def HandleResult.Wait (h : HandleResult) (ctxDone pickCtx : Bool) :
    WaitOutcome :=
  if h.doneClosed && !(ctxDone && pickCtx) then .returns h.result
  else if ctxDone then .returns none
  else .blocks

/-! Concrete sample data, used to evaluate the theorems on closed inputs. -/

/-- A sample allocation reference. -/
def sampleAlloc : Allocation :=
  ⟨"a-1", "n-1"⟩

/-- A sample node with an advertised address. -/
def sampleNode : Node :=
  ⟨"127.0.0.1:4646"⟩

/-- An environment whose registry resolves every node to one with an empty
advertised address; its transport never answers (it is never reached). -/
def emptyAddrEnv : Env :=
  ⟨fun _ => .ok ⟨""⟩, fun _ => .error "transport must not be reached"⟩

/-- A sample non-success response carrying a server-side error body. -/
def resp500 : Response :=
  ⟨500, "server on fire"⟩

/-- An environment that resolves nodes to `sampleNode` and answers every
request with the non-success `resp500`. -/
def env500 : Env :=
  ⟨fun _ => .ok sampleNode, fun _ => .ok resp500⟩

/-- A sample successful response whose body the sample decoders reject. -/
def respOkGarbage : Response :=
  ⟨200, "not json"⟩

/-- An environment that resolves nodes to `sampleNode` and answers every
request with the 200-status `respOkGarbage`. -/
def envOkGarbage : Env :=
  ⟨fun _ => .ok sampleNode, fun _ => .ok respOkGarbage⟩

/-- A sample structured decoder that rejects every body. -/
def rejectFiles : String → Except String (List AllocFileInfo) :=
  fun _ => .error "json: cannot unmarshal"

/-- A sample single-entry decoder that rejects every body. -/
def rejectFile : String → Except String (Option AllocFileInfo) :=
  fun _ => .error "json: cannot unmarshal"

/-- A sample frame decoder that decodes no frame from any body. -/
def noFrames : String → List StreamFrame :=
  fun _ => []

/-- A sample data frame (offset 120 of stdout.log, payload "aGk="). -/
def dataFrame : StreamFrame :=
  ⟨120, "aGk=", "stdout.log", ""⟩

/-- A sample heartbeat frame: empty data and empty event. -/
def heartbeatFrame : StreamFrame :=
  ⟨0, "", "", ""⟩

/-! Helper lemmas about the decode loop, shared by several theorems below. -/

/-- With no cancellation, the decode loop delivers exactly the
non-heartbeat frames, in order, and closes the channel at decode failure. -/
theorem streamLoopGo_none_eq (fs : List StreamFrame) :
    streamLoopGo none fs = (fs.filter (fun f => !f.IsHeartbeat), true) := by
  induction fs with
  | nil => rfl
  | cons f rest ih =>
    simp only [streamLoopGo, ih, List.filter_cons]
    cases hf : f.IsHeartbeat <;> simp [hf]

/-- With cancellation ready from iteration `k` on, the decode loop delivers
exactly the non-heartbeat frames among the first `k` decoded ones, and
closes the channel only if decode failure strikes before iteration `k`. -/
theorem streamLoopGo_some_eq (fs : List StreamFrame) (k : Nat) :
    streamLoopGo (some k) fs =
      ((fs.take k).filter (fun f => !f.IsHeartbeat), decide (fs.length < k)) := by
  induction fs generalizing k with
  | nil =>
    cases k with
    | zero => simp [streamLoopGo]
    | succ k => simp [streamLoopGo]
  | cons f rest ih =>
    cases k with
    | zero => simp [streamLoopGo]
    | succ k =>
      simp only [streamLoopGo, ih k, List.take_succ_cons, List.filter_cons,
        List.length_cons]
      cases hf : f.IsHeartbeat <;> simp [hf, Nat.succ_lt_succ_iff]

/-! The claims. -/

/-- C1: every `Wait` call that observes the delivered signal — whether it
started before or after delivery, and however many callers there are —
returns the one stored value, identical across all calls; a `Wait` whose
own context is cancelled before delivery returns the no-result indication
`none`, and a later waiter still observes the stored value. -/
theorem wait_broadcast_one_value (v : Option WaitResult)
    (c1 p1 c2 p2 p3 : Bool)
    (h1 : ¬(c1 = true ∧ p1 = true)) (h2 : ¬(c2 = true ∧ p2 = true)) :
    (newHandleResult.deliver v).Wait c1 p1 = .returns v ∧
    (newHandleResult.deliver v).Wait c2 p2 = (newHandleResult.deliver v).Wait c1 p1 ∧
    newHandleResult.Wait true p3 = .returns none ∧
    (newHandleResult.deliver v).Wait false false = .returns v := by
  cases c1 <;> cases p1 <;> cases c2 <;> cases p2 <;>
    simp_all [HandleResult.Wait, HandleResult.deliver, newHandleResult]

/-- Witness for C1 at exit code 2, with one waiter whose context is also
ready but whose select picks `doneCh`, and one cancelled-early waiter. -/
theorem wait_broadcast_one_value_witness :
    (newHandleResult.deliver (some ⟨2⟩)).Wait false false = .returns (some ⟨2⟩) ∧
    (newHandleResult.deliver (some ⟨2⟩)).Wait true false =
      (newHandleResult.deliver (some ⟨2⟩)).Wait false false ∧
    newHandleResult.Wait true true = .returns none ∧
    (newHandleResult.deliver (some ⟨2⟩)).Wait false false = .returns (some ⟨2⟩) :=
  wait_broadcast_one_value (some ⟨2⟩) false false true false true
    (by simp) (by simp)

/-- C8: if the single-delivery source is abandoned without producing, the
handle stays in its initial state, and a `Wait` whose own context never
fires blocks forever; only the caller's own cancellation makes it return. -/
theorem wait_blocks_when_abandoned (p q : Bool) :
    newHandleResult.Wait false p = .blocks ∧
    newHandleResult.Wait true q = .returns none := by
  simp [HandleResult.Wait, newHandleResult]

/-- C10: the no-result indication is the nil pointer: a `Wait` cancelled
before delivery returns `none`, and a `Wait` that observes a delivered nil
(the source channel closed without a send) also returns `none` — the two
outcomes are indistinguishable at the `Wait` interface. -/
theorem wait_nil_indistinguishable (p c pk : Bool) :
    newHandleResult.Wait true p = .returns none ∧
    (newHandleResult.deliver none).Wait c pk = .returns none ∧
    newHandleResult.Wait true p = (newHandleResult.deliver none).Wait c pk := by
  cases c <;> cases pk <;>
    simp [HandleResult.Wait, HandleResult.deliver, newHandleResult]

/-- C2: when the resolved node advertises an empty HTTP address, each of
List, Stat, ReadAt, Cat and Stream returns the "not advertised" error
naming the allocation ID, and issues no HTTP request at all. -/
theorem no_advertised_addr_fails_fast (env : Env) (alloc : Allocation)
    (node : Node)
    (decF : String → Except String (List AllocFileInfo))
    (decS : String → Except String (Option AllocFileInfo))
    (frames : String → List StreamFrame) (cancelAt : Option Nat)
    (path origin : String) (offset limit : Int)
    (hres : env.nodesInfo alloc.NodeID = .ok node)
    (haddr : node.HTTPAddr = "") :
    AllocFS.list env decF alloc path = (.error (noAddrMsg alloc.ID), []) ∧
    AllocFS.stat env decS alloc path = (.error (noAddrMsg alloc.ID), []) ∧
    AllocFS.readAt env alloc path offset limit = (.error (noAddrMsg alloc.ID), []) ∧
    AllocFS.cat env alloc path = (.error (noAddrMsg alloc.ID), []) ∧
    AllocFS.stream env frames cancelAt alloc path origin offset =
      (.error (noAddrMsg alloc.ID), []) := by
  simp [AllocFS.list, AllocFS.stat, AllocFS.readAt, AllocFS.cat,
    AllocFS.stream, hres, haddr]

/-- Witness for C2 in the environment whose registry advertises no address. -/
theorem no_advertised_addr_fails_fast_witness :
    AllocFS.list emptyAddrEnv rejectFiles sampleAlloc "/" =
      (.error (noAddrMsg sampleAlloc.ID), []) ∧
    AllocFS.stat emptyAddrEnv rejectFile sampleAlloc "/" =
      (.error (noAddrMsg sampleAlloc.ID), []) ∧
    AllocFS.readAt emptyAddrEnv sampleAlloc "/" 0 10 =
      (.error (noAddrMsg sampleAlloc.ID), []) ∧
    AllocFS.cat emptyAddrEnv sampleAlloc "/" =
      (.error (noAddrMsg sampleAlloc.ID), []) ∧
    AllocFS.stream emptyAddrEnv noFrames none sampleAlloc "/" "start" 0 =
      (.error (noAddrMsg sampleAlloc.ID), []) :=
  no_advertised_addr_fails_fast emptyAddrEnv sampleAlloc ⟨""⟩
    rejectFiles rejectFile noFrames none "/" "start" 0 10 rfl rfl

/-- C3: with no cancellation, the decode loop delivers exactly the
non-heartbeat frames of the input, in their original relative order, and
never delivers a heartbeat. -/
theorem stream_filters_heartbeats (fs : List StreamFrame) :
    (streamLoop none fs).1 = fs.filter (fun f => !f.IsHeartbeat) ∧
    (streamLoop none fs).1.all (fun f => !f.IsHeartbeat) = true := by
  refine ⟨by simp [streamLoop, streamLoopGo_none_eq], ?_⟩
  simp only [streamLoop, streamLoopGo_none_eq]
  exact List.all_eq_true.2 fun f hf => (List.mem_filter.1 hf).2

/-- C7: once cancellation is ready from iteration `k` on, the loop stops at
the cancel check of iteration `k`; the delivered frames are exactly the
non-heartbeat ones among the first `k` decoded frames — nothing decoded at
or after the cancellation point is ever handed to the channel. -/
theorem stream_cancel_stops_delivery (k : Nat) (fs : List StreamFrame) :
    (streamLoop (some k) fs).1 = (fs.take k).filter (fun f => !f.IsHeartbeat) := by
  simp [streamLoop, streamLoopGo_some_eq]

/-- C5 counterexample: with cancellation already signaled at iteration 0 and
a frame still pending, the loop exits by the cancellation path without
closing the delivery channel — the claim that every exit path closes the
channel is false. -/
theorem stream_cancel_leaves_channel_open :
    streamLoop (some 0) [dataFrame] = ([], false) := rfl

/-- C5 amended: the decode-failure exit closes the delivery channel, but the
cancellation exit (cancel ready no later than the decoder runs dry) returns
without closing it. -/
theorem stream_close_only_on_decode_failure (fs : List StreamFrame) (k : Nat)
    (h : k ≤ fs.length) :
    (streamLoop none fs).2 = true ∧ (streamLoop (some k) fs).2 = false := by
  refine ⟨by simp [streamLoop, streamLoopGo_none_eq], ?_⟩
  simp [streamLoop, streamLoopGo_some_eq, decide_eq_false (Nat.not_lt.mpr h)]

/-- Witness for the amended C5: one pending frame, cancel ready from
iteration 1 — decode failure closes, cancellation does not. -/
theorem stream_close_only_on_decode_failure_witness :
    (streamLoop none [dataFrame]).2 = true ∧
    (streamLoop (some 1) [dataFrame]).2 = false :=
  stream_close_only_on_decode_failure [dataFrame] 1 (by decide)

/-- C6: when the decoder fails (end of body included), the Stream loop
closes the delivery channel and terminates, the caller having received a
plain `.ok` channel with the filtered frames — no error anywhere; whereas a
List whose body fails to decode returns that decode error to its caller. -/
theorem stream_decode_failure_is_normal_end (fs : List StreamFrame)
    (env : Env) (alloc : Allocation) (node : Node)
    (decF : String → Except String (List AllocFileInfo))
    (path : String) (resp : Response) (e : String)
    (hres : env.nodesInfo alloc.NodeID = .ok node)
    (haddr : node.HTTPAddr ≠ "")
    (hdo : ∀ r, env.httpDo r = .ok resp)
    (hstatus : resp.statusCode = 200)
    (hdec : decF resp.body = .error e) :
    (streamLoop none fs).2 = true ∧
    (AllocFS.stream env (fun _ => fs) none alloc path "start" 0).1 =
      .ok (fs.filter (fun f => !f.IsHeartbeat), true) ∧
    (AllocFS.list env decF alloc path).1 = .error e := by
  refine ⟨by simp [streamLoop, streamLoopGo_none_eq], ?_, ?_⟩
  · simp [AllocFS.stream, hres, haddr, hdo, streamLoop, streamLoopGo_none_eq]
  · simp [AllocFS.list, hres, haddr, hdo, hstatus, hdec]

/-- Witness for C6: a 200 response whose body decodes as zero frames for
Stream (clean close) and fails structured decoding for List (hard error). -/
theorem stream_decode_failure_is_normal_end_witness :
    (streamLoop none [dataFrame]).2 = true ∧
    (AllocFS.stream envOkGarbage (fun _ => [dataFrame]) none sampleAlloc
      "stdout.log" "start" 0).1 =
      .ok (List.filter (fun f => !f.IsHeartbeat) [dataFrame], true) ∧
    (AllocFS.list envOkGarbage rejectFiles sampleAlloc "stdout.log").1 =
      .error "json: cannot unmarshal" :=
  stream_decode_failure_is_normal_end [dataFrame] envOkGarbage sampleAlloc
    sampleNode rejectFiles "stdout.log" respOkGarbage "json: cannot unmarshal"
    rfl (by simp [sampleNode]) (fun _ => rfl) rfl rfl

/-- C4 counterexample: on a 500 response, ReadAt and Cat succeed, handing
the caller the raw response body instead of failing — the claim that all
four dispatcher operations fail on a non-success status is false. -/
theorem readat_cat_ignore_status :
    resp500.statusCode = 500 ∧
    (AllocFS.readAt env500 sampleAlloc "logs" 0 10).1 = .ok "server on fire" ∧
    (AllocFS.cat env500 sampleAlloc "logs").1 = .ok "server on fire" := by
  refine ⟨rfl, ?_, ?_⟩ <;>
    simp [AllocFS.readAt, AllocFS.cat, env500, sampleAlloc, sampleNode, resp500]

/-- C4 amended: List and Stat fail on a non-200 status with the response
body as the error text; ReadAt and Cat never inspect the status and return
the body regardless. -/
theorem status_error_uses_body (env : Env) (alloc : Allocation) (node : Node)
    (decF : String → Except String (List AllocFileInfo))
    (decS : String → Except String (Option AllocFileInfo))
    (path : String) (offset limit : Int) (resp : Response)
    (hres : env.nodesInfo alloc.NodeID = .ok node)
    (haddr : node.HTTPAddr ≠ "")
    (hdo : ∀ r, env.httpDo r = .ok resp)
    (hstatus : resp.statusCode ≠ 200) :
    (AllocFS.list env decF alloc path).1 = .error resp.body ∧
    (AllocFS.stat env decS alloc path).1 = .error resp.body ∧
    (AllocFS.readAt env alloc path offset limit).1 = .ok resp.body ∧
    (AllocFS.cat env alloc path).1 = .ok resp.body := by
  simp [AllocFS.list, AllocFS.stat, AllocFS.readAt, AllocFS.cat,
    AllocFS.getErrorMsg, hres, haddr, hdo, hstatus]

/-- Witness for the amended C4 on the 500 response. -/
theorem status_error_uses_body_witness :
    (AllocFS.list env500 rejectFiles sampleAlloc "logs").1 =
      .error resp500.body ∧
    (AllocFS.stat env500 rejectFile sampleAlloc "logs").1 =
      .error resp500.body ∧
    (AllocFS.readAt env500 sampleAlloc "logs" 0 10).1 = .ok resp500.body ∧
    (AllocFS.cat env500 sampleAlloc "logs").1 = .ok resp500.body :=
  status_error_uses_body env500 sampleAlloc sampleNode rejectFiles rejectFile
    "logs" 0 10 resp500 rfl (by simp [sampleNode]) (fun _ => rfl) (by decide)

/-- C9: Stream never inspects the status code — once the transport answers,
whatever the status, Stream hands back the decode-loop channel with a nil
error; and if the (error-carrying) body decodes as zero frames, the caller
just sees an empty, closed channel: a clean end-of-stream, not an error. -/
theorem stream_ignores_status (env : Env) (alloc : Allocation) (node : Node)
    (decFrames : String → List StreamFrame) (path origin : String)
    (offset : Int) (resp : Response)
    (hres : env.nodesInfo alloc.NodeID = .ok node)
    (haddr : node.HTTPAddr ≠ "")
    (hdo : ∀ r, env.httpDo r = .ok resp) :
    (AllocFS.stream env decFrames none alloc path origin offset).1 =
      .ok (streamLoop none (decFrames resp.body)) ∧
    (decFrames resp.body = [] →
      (AllocFS.stream env decFrames none alloc path origin offset).1 =
        .ok ([], true)) := by
  refine ⟨by simp [AllocFS.stream, hres, haddr, hdo], fun hnil => ?_⟩
  simp [AllocFS.stream, hres, haddr, hdo, hnil, streamLoop, streamLoopGo]

/-- Witness for C9: a 500 response whose body yields no frame — Stream still
returns `.ok`, and the channel is empty and closed. -/
theorem stream_ignores_status_witness :
    (AllocFS.stream env500 noFrames none sampleAlloc "logs" "start" 0).1 =
      .ok (streamLoop none (noFrames resp500.body)) ∧
    (AllocFS.stream env500 noFrames none sampleAlloc "logs" "start" 0).1 =
      .ok ([], true) :=
  ⟨(stream_ignores_status env500 sampleAlloc sampleNode noFrames "logs"
      "start" 0 resp500 rfl (by simp [sampleNode]) (fun _ => rfl)).1,
   (stream_ignores_status env500 sampleAlloc sampleNode noFrames "logs"
      "start" 0 resp500 rfl (by simp [sampleNode]) (fun _ => rfl)).2 rfl⟩
